import Mathlib

/-!
Shallow embedding of `src/tcnae.py` (class `TCNAE`, the Temporal Convolutional
Autoencoder): the configuration record written by `__init__`, the model
construction performed by `build_model`, the keras `fit` call issued by `fit`,
and the prediction paths `predict` / `predict_validation` over a
rational-valued model of numpy arrays.
-/

set_option autoImplicit false

/-- A numpy ndarray: a shape together with a total data function on
multi-indices.  Entries at out-of-range indices are junk that in-range
results of the modelled operations never depend on.  Array elements
(numpy floats) are modelled as rationals. -/
structure NDArray where
  shape : List Nat
  data : List Nat → ℚ

/-- Elementwise subtraction `a - b` (the numpy `-` operator on two arrays of
equal shape; theorems that use it carry the shape-equality hypothesis). -/
def numpySub (a b : NDArray) : NDArray :=
  ⟨a.shape, fun i => a.data i - b.data i⟩

/-- Elementwise `numpy.square`. -/
def numpySquare (a : NDArray) : NDArray :=
  ⟨a.shape, fun i => a.data i * a.data i⟩

/-- Rebuild a full multi-index from an index into the squeezed array:
axes of extent 1 receive index 0, the remaining axes consume the given
index positions in order. -/
def expandIdx : List Nat → List Nat → List Nat
  | [], _ => []
  | d :: ds, i =>
    if d = 1 then 0 :: expandIdx ds i
    else i.headD 0 :: expandIdx ds i.tail

/-- `ndarray.squeeze()`: drop every axis of extent 1. -/
def numpySqueeze (a : NDArray) : NDArray :=
  ⟨a.shape.filter (fun d => d != 1), fun i => a.data (expandIdx a.shape i)⟩

/-- `numpy.mean(·, axis=-1)`: arithmetic mean over the last axis. -/
def numpyMeanLast (a : NDArray) : NDArray :=
  let n := a.shape.getLastD 0
  ⟨a.shape.dropLast, fun i => ((Finset.range n).sum fun j => a.data (i ++ [j])) / (n : ℚ)⟩

/-- `numpy.pad(a, ((0,0),(0,k),(0,0)), 'constant')` on a 3-D array: grow
axis 1 by `k` trailing zero timesteps.  (In python a negative pad width
raises; the claims about this operation assume the decoder output is not
longer than the input, so `k` is a natural number here.) -/
def numpyPadTrailing (a : NDArray) (k : Nat) : NDArray :=
  ⟨a.shape.set 1 (a.shape.getD 1 0 + k),
   fun i => if i.getD 1 0 < a.shape.getD 1 0 then a.data i else 0⟩

/-- A python value, just rich enough to tell a string, a tuple and a list
apart (the `self.loss = loss,` slip in `__init__` stores a 1-tuple). -/
inductive PyVal where
  | str : String → PyVal
  | tuple : List PyVal → PyVal
  | pyList : List PyVal → PyVal

/-- The pooling layer class passed as the `pooler` hyperparameter
(`AveragePooling1D` by default, `MaxPooling1D` as the alternative). -/
inductive Pooler where
  | average
  | max

/-- The keras model assembled and compiled by `build_model`, abstracted to
the facts the development uses: the input placeholder's batch shape
`Input(batch_shape=(None, 128, 1))`, the timestep extents produced by the
pooling / upsampling pair (pooling with `padding='valid'` floors, the TCN
blocks with `padding='same'`/`'causal'` and the kernel-size-1 `Conv1D`
preserve length, `Dense` maps channels to `ts_dimension`), and the `loss`
and `metrics` arguments of `model.compile`. -/
structure KerasModel where
  inputBatchShape : Option Nat × Nat × Nat
  encPooledTimesteps : Nat
  outputTimesteps : Nat
  outputChannels : Nat
  lossArg : PyVal
  metricsArg : PyVal

/-- The `TCNAE` instance: the attributes assigned in `__init__`, plus the
`model` attribute (class attribute `model = None`, overwritten by
`build_model`). -/
structure TCNAE where
  ts_dimension : Nat
  dilations : List Nat
  nb_filters : Nat
  kernel_size : Nat
  nb_stacks : Nat
  padding : String
  dropout_rate : ℚ
  filters_conv1d : Nat
  activation_conv1d : String
  latent_sample_rate : Nat
  pooler : Pooler
  learning_rate : ℚ
  conv_kernel_init : String
  loss : PyVal
  use_early_stopping : Bool
  model : Option KerasModel

/-- `build_model`: wires input placeholder, TCN encoder, `Conv1D` channel
projection, pooling by `latent_sample_rate`, upsampling by the same factor,
TCN decoder and a `Dense(ts_dimension)` head, then compiles with
`loss=self.loss` and `metrics=[self.loss]`.  The input placeholder is the
hardcoded `Input(batch_shape=(None, 128, 1))` of the source. -/
def build_model (t : TCNAE) : KerasModel :=
  let sampling_factor := t.latent_sample_rate
  { inputBatchShape := (none, 128, 1)
    encPooledTimesteps := 128 / sampling_factor
    outputTimesteps := 128 / sampling_factor * sampling_factor
    outputChannels := t.ts_dimension
    lossArg := t.loss
    metricsArg := PyVal.pyList [t.loss] }

/-- `__init__`: store every hyperparameter on the instance — the line
`self.loss = loss,` has a trailing comma, so a 1-tuple is stored — and then
call `self.build_model()`, which assigns the freshly compiled model to
`self.model`. -/
def tcnaeInit (ts_dimension : Nat) (dilations : List Nat) (nb_filters : Nat)
    (kernel_size : Nat) (nb_stacks : Nat) (padding : String) (dropout_rate : ℚ)
    (filters_conv1d : Nat) (activation_conv1d : String)
    (latent_sample_rate : Nat) (pooler : Pooler) (learning_rate : ℚ)
    (conv_kernel_init : String) (loss : PyVal) (use_early_stopping : Bool) :
    TCNAE :=
  let t : TCNAE :=
    { ts_dimension := ts_dimension
      dilations := dilations
      nb_filters := nb_filters
      kernel_size := kernel_size
      nb_stacks := nb_stacks
      padding := padding
      dropout_rate := dropout_rate
      filters_conv1d := filters_conv1d
      activation_conv1d := activation_conv1d
      latent_sample_rate := latent_sample_rate
      pooler := pooler
      learning_rate := learning_rate
      conv_kernel_init := conv_kernel_init
      loss := PyVal.tuple [loss]
      use_early_stopping := use_early_stopping
      model := none }
  { t with model := some (build_model t) }

/-- The intermediate of `predict` / `predict_validation`:
`X_rec = self.model.predict(test_X)` followed by
`X_rec = numpy.pad(X_rec, ((0,0),(0, test_X.shape[1] - X_rec.shape[1]),(0,0)), 'constant')`.
`modelPredict` stands for `self.model.predict` with the current learned
parameters. -/
def reconstructPadded (modelPredict : NDArray → NDArray) (x : NDArray) : NDArray :=
  let X_rec := modelPredict x
  numpyPadTrailing X_rec (x.shape.getD 1 0 - X_rec.shape.getD 1 0)

/-- `predict`: pad the reconstruction to the input's timestep length,
`E_rec = (X_rec - test_X).squeeze()`, then
`mse = numpy.mean(numpy.square(E_rec), axis=-1)`. -/
def predict (modelPredict : NDArray → NDArray) (test_X : NDArray) : NDArray :=
  let X_rec := reconstructPadded modelPredict test_X
  let E_rec := numpySqueeze (numpySub X_rec test_X)
  numpyMeanLast (numpySquare E_rec)

/-- `predict_validation`: textually the same computation as `predict`, with
the argument named `validation_X`. -/
def predict_validation (modelPredict : NDArray → NDArray) (validation_X : NDArray) : NDArray :=
  let X_rec := reconstructPadded modelPredict validation_X
  let E_rec := numpySqueeze (numpySub X_rec validation_X)
  numpyMeanLast (numpySquare E_rec)

/-- The `EarlyStopping(monitor='val_loss', patience=2, min_delta=1e-4,
restore_best_weights=True)` callback configuration built in `fit`. -/
structure EarlyStoppingConfig where
  monitor : String
  patience : Nat
  min_delta : ℚ
  restore_best_weights : Bool

/-- The keyword arguments `fit` passes to `self.model.fit`. -/
structure KerasFitCall (α : Type) where
  x : α
  y : α
  batch_size : Nat
  epochs : Nat
  validation_data : α × α
  shuffle : Bool
  callbacks : Option (List EarlyStoppingConfig)

/-- `fit`: builds the optional early-stopping callback, then calls
`self.model.fit(X_train, X_train, batch_size=…, epochs=…,
validation_data=(X_valid, X_valid), shuffle=True, callbacks=…)`.
The embedding records the call the source issues. -/
def fit {α : Type} (t : TCNAE) (X_train X_valid : α)
    (batch_size epochs : Nat) : KerasFitCall α :=
  let my_callbacks : Option (List EarlyStoppingConfig) :=
    if t.use_early_stopping then
      some [{ monitor := "val_loss", patience := 2, min_delta := 1/10000,
              restore_best_weights := true }]
    else none
  { x := X_train
    y := X_train
    batch_size := batch_size
    epochs := epochs
    validation_data := (X_valid, X_valid)
    shuffle := true
    callbacks := my_callbacks }

/-- Modelled from the spec: the epoch loop and the early-stopping logic of
`self.model.fit` live in the external framework (the `EarlyStopping`
callback), not in this repository; `fit` only passes the callback built
above.  Following the spec — "Optional early stopping halts training when
validation loss fails to improve by a minimum delta within a patience
window, restoring the best-seen parameters" — one epoch stream entry is a
pair of the parameters after that epoch and its validation loss; the loop
keeps the best-seen pair, counts epochs without an improvement of more
than `min_delta` over the best, halts once that count reaches `patience`
(restoring the best-seen pair), and otherwise ends on the last epoch's
parameters.  The result is the final `(parameters, validation loss)` pair,
whether the halt triggered, and the list of epochs actually processed. -/
def esRun {W : Type} (min_delta : ℚ) (patience : Nat) :
    W × ℚ → Nat → W × ℚ → List (W × ℚ) → (W × ℚ) × Bool × List (W × ℚ)
  | _, _, last, [] => (last, false, [])
  | best, wait, _, e :: rest =>
    if e.2 < best.2 - min_delta then
      let r := esRun min_delta patience e 0 e rest
      (r.1, r.2.1, e :: r.2.2)
    else if patience ≤ wait + 1 then (best, true, [e])
    else
      let r := esRun min_delta patience best (wait + 1) e rest
      (r.1, r.2.1, e :: r.2.2)

/-- Modelled from the spec: run the early-stopping training loop on a
stream of epochs.  The first epoch always improves on the initial best
(which starts at infinity). -/
def earlyStoppingFit {W : Type} (min_delta : ℚ) (patience : Nat) :
    List (W × ℚ) → Option ((W × ℚ) × Bool × List (W × ℚ))
  | [] => none
  | e :: rest =>
    let r := esRun min_delta patience e 0 e rest
    some (r.1, r.2.1, e :: r.2.2)

/-- The instantiation used by `fit`: `min_delta=1e-4`, `patience=2`, as in
the `EarlyStopping` callback it constructs. -/
def fitWithEarlyStopping {W : Type} :
    List (W × ℚ) → Option ((W × ℚ) × Bool × List (W × ℚ)) :=
  earlyStoppingFit (1/10000) 2

/-- The all-zero `(2, 128, 1)` batch used as a concrete input. -/
def zeros_2_128_1 : NDArray := ⟨[2, 128, 1], fun _ => 0⟩

/-- A model state whose reconstruction of any batch is the all-zero
`(2, 128, 1)` array (the decoder output length `128/2*2 = 128` of a
configuration with `latent_sample_rate = 2`). -/
def zeroModel_2_128_1 : NDArray → NDArray := fun _ => zeros_2_128_1

/-- The `(2, 2, 2)` all-zero batch. -/
def zeros_2_2_2 : NDArray := ⟨[2, 2, 2], fun _ => 0⟩

/-- A model state reconstructing every batch as the all-zero `(2, 2, 2)`
array. -/
def zeroModel_2_2_2 : NDArray → NDArray := fun _ => zeros_2_2_2

/-- The failing configuration for the input-placeholder claim:
`ts_dimension = 2`, every other hyperparameter at its `__init__` default. -/
def cfgTs2 : TCNAE :=
  tcnaeInit 2 [1, 2, 4, 8, 16] 20 20 1 "same" 0 8 "linear" 42 Pooler.average
    (1/1000) "glorot_normal" (PyVal.str "mean_squared_error") false

/-- C1: `build_model` does not give the input placeholder the configured
channel count: the source hardcodes `Input(batch_shape=(None, 128, 1))`,
so for `ts_dimension = 2` (defaults otherwise) the placeholder keeps
timestep extent 128 and channel extent 1, while the `Dense` head outputs
2 channels — the input placeholder's channel dimension differs from
`ts_dimension`, and no configured window length exists at all. -/
theorem c1_input_placeholder_ignores_config :
    cfgTs2.model.map KerasModel.inputBatchShape = some (none, 128, 1) ∧
    cfgTs2.ts_dimension = 2 ∧
    cfgTs2.model.map KerasModel.outputChannels = some 2 ∧
    (1 : Nat) ≠ 2 :=
  ⟨rfl, rfl, rfl, by decide⟩

/-- C5: `predict` and `predict_validation` compute the same function: on
the same input array and the same model parameters they return equal
error arrays (their bodies are the same composition of numpy
operations). -/
theorem c5_predict_eq_predict_validation
    (modelPredict : NDArray → NDArray) (x : NDArray) :
    predict modelPredict x = predict_validation modelPredict x := rfl

/-- C6: `predict` is deterministic and read-only with respect to the model
state: two calls on equal inputs with the same model parameters return
identical error arrays (the embedding is pure, as the source mutates
nothing). -/
theorem c6_predict_deterministic
    (modelPredict : NDArray → NDArray) (x₁ x₂ : NDArray) (h : x₁ = x₂) :
    predict modelPredict x₁ = predict modelPredict x₂ := by rw [h]

/-- Witness for C6 at the concrete zero model and zero batch. -/
theorem c6_predict_deterministic_witness :
    predict zeroModel_2_128_1 zeros_2_128_1 =
      predict zeroModel_2_128_1 zeros_2_128_1 :=
  c6_predict_deterministic zeroModel_2_128_1 zeros_2_128_1 zeros_2_128_1 rfl

/-- C9: the `model` attribute is never `None` after the constructor
returns: `__init__` unconditionally calls `build_model`, which assigns the
freshly compiled model. -/
theorem c9_model_always_built (ts_dimension : Nat) (dilations : List Nat)
    (nb_filters kernel_size nb_stacks : Nat) (padding : String)
    (dropout_rate : ℚ) (filters_conv1d : Nat) (activation_conv1d : String)
    (latent_sample_rate : Nat) (pooler : Pooler) (learning_rate : ℚ)
    (conv_kernel_init : String) (loss : PyVal) (use_early_stopping : Bool) :
    (tcnaeInit ts_dimension dilations nb_filters kernel_size nb_stacks
        padding dropout_rate filters_conv1d activation_conv1d
        latent_sample_rate pooler learning_rate conv_kernel_init loss
        use_early_stopping).model =
      some (build_model (tcnaeInit ts_dimension dilations nb_filters
        kernel_size nb_stacks padding dropout_rate filters_conv1d
        activation_conv1d latent_sample_rate pooler learning_rate
        conv_kernel_init loss use_early_stopping)) ∧
    ((tcnaeInit ts_dimension dilations nb_filters kernel_size nb_stacks
        padding dropout_rate filters_conv1d activation_conv1d
        latent_sample_rate pooler learning_rate conv_kernel_init loss
        use_early_stopping).model).isSome = true :=
  ⟨rfl, rfl⟩

/-- C10: `fit` uses the training batch as both input and reconstruction
target, and the validation batch as its own target; its signature accepts
no separate label array, and the issued keras call derives both targets
from the two inputs alone. -/
theorem c10_fit_targets_are_inputs {α : Type} (t : TCNAE)
    (X_train X_valid : α) (batch_size epochs : Nat) :
    (fit t X_train X_valid batch_size epochs).y =
      (fit t X_train X_valid batch_size epochs).x ∧
    (fit t X_train X_valid batch_size epochs).x = X_train ∧
    (fit t X_train X_valid batch_size epochs).validation_data =
      (X_valid, X_valid) :=
  ⟨rfl, rfl, rfl⟩

/-- C4: every entry of the error array returned by `predict` (and
`predict_validation`) is non-negative: each is a mean of squared
differences. -/
theorem c4_error_entries_nonneg (modelPredict : NDArray → NDArray)
    (x : NDArray) (idx : List Nat) :
    0 ≤ (predict modelPredict x).data idx ∧
    0 ≤ (predict_validation modelPredict x).data idx := by
  constructor <;>
    exact div_nonneg (Finset.sum_nonneg fun j _ => mul_self_nonneg _)
      (Nat.cast_nonneg _)

/-- C2 counterexample: on the univariate batch shape `(2, 128, 1)` that the
hardcoded input placeholder accepts, with a model state reconstructing the
full 128 timesteps, `.squeeze()` drops the channel axis and
`numpy.mean(…, axis=-1)` then reduces over the timestep axis, so `predict`
(and `predict_validation`) return an array of shape `(2,)`, not the
claimed `(batch, timesteps) = (2, 128)`. -/
theorem c2_counterexample_univariate_shape :
    (predict zeroModel_2_128_1 zeros_2_128_1).shape = [2] ∧
    (predict_validation zeroModel_2_128_1 zeros_2_128_1).shape = [2] ∧
    ([2] : List Nat) ≠ [2, 128] := by
  refine ⟨by decide, by decide, by decide⟩

/-- C2 (amended): when no axis of the batch has extent 1 — in particular
`channels ≥ 2`, so `.squeeze()` removes nothing — and the decoder output
has the batch and channel extents of the input and at most its timestep
extent, `predict` and `predict_validation` return an array of shape
`(batch, timesteps)`; with `channels = 1` the channel axis is squeezed
away and the mean instead reduces over timesteps, yielding shape
`(batch,)`. -/
theorem c2_error_shape (modelPredict : NDArray → NDArray) (x : NDArray)
    (b t tr c : Nat) (hx : x.shape = [b, t, c])
    (hm : (modelPredict x).shape = [b, tr, c]) (hle : tr ≤ t)
    (hb : b ≠ 1) (ht : t ≠ 1) (hc : c ≠ 1) :
    (predict modelPredict x).shape = [b, t] ∧
    (predict_validation modelPredict x).shape = [b, t] := by
  have h1 : (reconstructPadded modelPredict x).shape = [b, t, c] := by
    simp only [reconstructPadded, numpyPadTrailing, hx, hm]
    simp [List.getD, Nat.add_sub_cancel' hle]
  have hb' : (b != 1) = true := by simp [hb]
  have ht' : (t != 1) = true := by simp [ht]
  have hc' : (c != 1) = true := by simp [hc]
  constructor <;>
  · simp only [predict, predict_validation, numpyMeanLast, numpySquare,
      numpySqueeze, numpySub, h1]
    simp [List.filter, hb', ht', hc']

/-- Witness for C2 (amended) at the `(2, 2, 2)` zero batch and a model
state reconstructing all of it. -/
theorem c2_error_shape_witness :
    (predict zeroModel_2_2_2 zeros_2_2_2).shape = [2, 2] ∧
    (predict_validation zeroModel_2_2_2 zeros_2_2_2).shape = [2, 2] :=
  c2_error_shape zeroModel_2_2_2 zeros_2_2_2 2 2 2 2 rfl rfl
    (by decide) (by decide) (by decide) (by decide)

/-- C3: the reconstruction, after the trailing-timestep zero padding
applied inside `predict` / `predict_validation`, has the timestep length
of the input, provided the decoder output is not longer than the input. -/
theorem c3_padded_reconstruction_length (modelPredict : NDArray → NDArray)
    (x : NDArray) (b t c br tr cr : Nat) (hx : x.shape = [b, t, c])
    (hm : (modelPredict x).shape = [br, tr, cr]) (hle : tr ≤ t) :
    (reconstructPadded modelPredict x).shape = [br, t, cr] ∧
    (reconstructPadded modelPredict x).shape.getD 1 0 = x.shape.getD 1 0 := by
  have h1 : (reconstructPadded modelPredict x).shape = [br, t, cr] := by
    simp only [reconstructPadded, numpyPadTrailing, hx, hm]
    simp [List.getD, Nat.add_sub_cancel' hle]
  exact ⟨h1, by rw [h1, hx]; rfl⟩

/-- Witness for C3 at the `(2, 128, 1)` zero batch and a model state
reconstructing the full 128 timesteps. -/
theorem c3_padded_reconstruction_length_witness :
    (reconstructPadded zeroModel_2_128_1 zeros_2_128_1).shape = [2, 128, 1] ∧
    (reconstructPadded zeroModel_2_128_1 zeros_2_128_1).shape.getD 1 0 =
      zeros_2_128_1.shape.getD 1 0 :=
  c3_padded_reconstruction_length zeroModel_2_128_1 zeros_2_128_1
    2 128 1 2 128 1 rfl rfl (by decide)

/-- C8: the constructor's `self.loss = loss,` stores a 1-tuple wrapping the
loss argument, not the loss string itself, and `build_model` passes that
tuple as the compiled model's `loss` argument and (wrapped once more in a
list) as its `metrics` argument. -/
theorem c8_loss_stored_as_tuple (s : String) (td : Nat) (dil : List Nat)
    (nf ks ns : Nat) (pad : String) (dr : ℚ) (fc : Nat) (ac : String)
    (lsr : Nat) (po : Pooler) (lr : ℚ) (cki : String) (es : Bool) :
    (tcnaeInit td dil nf ks ns pad dr fc ac lsr po lr cki
        (PyVal.str s) es).loss = PyVal.tuple [PyVal.str s] ∧
    (tcnaeInit td dil nf ks ns pad dr fc ac lsr po lr cki
        (PyVal.str s) es).loss ≠ PyVal.str s ∧
    (tcnaeInit td dil nf ks ns pad dr fc ac lsr po lr cki
        (PyVal.str s) es).model.map KerasModel.lossArg =
      some (PyVal.tuple [PyVal.str s]) ∧
    (tcnaeInit td dil nf ks ns pad dr fc ac lsr po lr cki
        (PyVal.str s) es).model.map KerasModel.metricsArg =
      some (PyVal.pyList [PyVal.tuple [PyVal.str s]]) :=
  ⟨rfl, fun h => PyVal.noConfusion h, rfl, rfl⟩

/-- Invariant of the early-stopping loop: whenever the run halts through
the patience trigger, the restored pair's validation loss is at most the
incoming best's, and exceeds no processed epoch's validation loss by more
than `min_delta`. -/
theorem esRun_halted_le {W : Type} (d : ℚ) (p : Nat) (hd : 0 ≤ d)
    (rest : List (W × ℚ)) :
    ∀ (best : W × ℚ) (wait : Nat) (last : W × ℚ),
      (esRun d p best wait last rest).2.1 = true →
      (esRun d p best wait last rest).1.2 ≤ best.2 ∧
      ∀ e ∈ (esRun d p best wait last rest).2.2,
        (esRun d p best wait last rest).1.2 ≤ e.2 + d := by
  induction rest with
  | nil => intro best wait last h; simp [esRun] at h
  | cons e rest ih =>
    intro best wait last h
    simp only [esRun] at h ⊢
    by_cases himp : e.2 < best.2 - d
    · simp only [if_pos himp] at h ⊢
      obtain ⟨h1, h2⟩ := ih e 0 e h
      refine ⟨by linarith, ?_⟩
      intro e' he'
      rcases List.mem_cons.mp he' with he' | he'
      · subst he'; linarith
      · exact h2 e' he'
    · simp only [if_neg himp] at h ⊢
      have hge : best.2 - d ≤ e.2 := le_of_not_lt himp
      by_cases hp : p ≤ wait + 1
      · simp only [if_pos hp] at h ⊢
        refine ⟨le_refl _, ?_⟩
        intro e' he'
        rcases List.mem_cons.mp he' with he' | he'
        · subst he'; linarith
        · simp at he'
      · simp only [if_neg hp] at h ⊢
        obtain ⟨h1, h2⟩ := ih best (wait + 1) e h
        refine ⟨h1, ?_⟩
        intro e' he'
        rcases List.mem_cons.mp he' with he' | he'
        · subst he'; linarith
        · exact h2 e' he'

/-- C7 (amended, modelled from the spec): whenever the patience trigger
halts the early-stopping training loop that `fit` configures
(`min_delta = 1e-4`, `patience = 2`, `restore_best_weights=True`), the
restored parameters' validation loss exceeds no processed epoch's
validation loss by more than `min_delta` — in particular it is within
`min_delta` of the best validation loss observed in the patience window. -/
theorem c7_early_stopping_restores_best {W : Type}
    (epochs : List (W × ℚ)) (r : W × ℚ) (processed : List (W × ℚ))
    (h : fitWithEarlyStopping epochs = some (r, true, processed)) :
    ∀ e ∈ processed, r.2 ≤ e.2 + 1/10000 := by
  cases epochs with
  | nil => simp [fitWithEarlyStopping, earlyStoppingFit] at h
  | cons e0 rest =>
    simp only [fitWithEarlyStopping, earlyStoppingFit, Option.some.injEq,
      Prod.mk.injEq] at h
    obtain ⟨h1, h2, h3⟩ := h
    obtain ⟨hb, hmem⟩ :=
      esRun_halted_le (1/10000) 2 (by norm_num) rest e0 0 e0 h2
    intro e he
    rw [← h3] at he
    rcases List.mem_cons.mp he with he | he
    · subst he; rw [h1] at hb; linarith
    · rw [h1] at hmem; exact hmem e he

/-- Witness for C7 (amended): a run whose validation losses `5, 6, 7`
trigger the halt after two non-improving epochs; the restored best pair
`(1, 5)` is within `1e-4` of every processed loss. -/
theorem c7_early_stopping_restores_best_witness :
    (5 : ℚ) ≤ 6 + 1/10000 :=
  c7_early_stopping_restores_best [((1 : Nat), (5 : ℚ)), (2, 6), (3, 7)]
    (1, 5) [((1 : Nat), (5 : ℚ)), (2, 6), (3, 7)]
    (by norm_num [fitWithEarlyStopping, earlyStoppingFit, esRun])
    (2, 6) (by simp)

/-- C7 counterexample: the claim as stated fails on the modelled loop in
two ways.  First, with losses `5, 1, 3` the halt never triggers, the last
epoch's parameters are kept, and their validation loss `3` is worse than
the best loss `1` observed within the patience window (the last two
epochs).  Second, with losses `1, 1 - 5e-5, 1 - 5e-5` the halt triggers
(improvements below `min_delta` do not reset the patience counter) and
the restored best's loss `1` is strictly worse than the observed
`1 - 5e-5`, though only within `min_delta`. -/
theorem c7_counterexample_early_stopping :
    (fitWithEarlyStopping [((1 : Nat), (5 : ℚ)), (2, 1), (3, 3)] =
        some ((3, 3), false, [(1, 5), (2, 1), (3, 3)]) ∧ (1 : ℚ) < 3) ∧
    (fitWithEarlyStopping
          [((1 : Nat), (1 : ℚ)), (2, 1 - 1/20000), (3, 1 - 1/20000)] =
        some ((1, 1), true, [(1, 1), (2, 1 - 1/20000), (3, 1 - 1/20000)]) ∧
      1 - 1/20000 < (1 : ℚ)) := by
  constructor <;>
    exact ⟨by norm_num [fitWithEarlyStopping, earlyStoppingFit, esRun],
      by norm_num⟩
